import Mathlib

/-!
Shallow embedding of the `sanals77/thesis` repository:
an API microservice (`src/microservices/api-service/app.py`), a background
worker (`src/microservices/worker-service/worker.py`) and a policy metrics
exporter (`src/observability/policy-metrics-exporter.py`).

Conventions of the embedding:
* a database / cluster environment is a record of booleans saying which
  external calls succeed (connection attempt, query);
* an exception that a function catches internally is a branch of the
  definition; an exception that escapes a function is an `Except.error`;
* a metric update is a `MetricOp` event; a handler or task returns the list
  of events it performed, in program order;
* connection usage is tracked by a `ConnUse` record (was a connection
  opened, was it closed before the call returned).
-/

/-- One Prometheus metric operation performed by the program:
a labelled counter increment by `delta`, or a labelled gauge set. -/
inductive MetricOp where
  | inc (metric : String) (labels : List String) (delta : Int)
  | set (metric : String) (labels : List String) (value : ℚ)
deriving DecidableEq, Repr

/-- Contribution of one metric operation to the counter `(m, ls)`. -/
def counterContribution (m : String) (ls : List String) (op : MetricOp) : Int :=
  match op with
  | .inc m' ls' d => if m' = m ∧ ls' = ls then d else 0
  | .set _ _ _ => 0

/-- Value of the counter `(m, ls)` after a sequence of metric operations
(starting from 0; gauge sets do not affect counters). -/
def counterValue (ops : List MetricOp) (m : String) (ls : List String) : Int :=
  (ops.map (counterContribution m ls)).sum

/-- The delta of a counter increment; 0 for a gauge set. -/
def incDelta (op : MetricOp) : Int :=
  match op with
  | .inc _ _ d => d
  | .set _ _ _ => 0

/-- Connection usage of one call: whether a connection was opened, and
whether every opened connection was closed before the call returned. -/
structure ConnUse where
  opened : Bool
  closed : Bool
deriving DecidableEq, Repr

/-- The call released every connection it opened. -/
def ConnUse.released (c : ConnUse) : Bool := !c.opened || c.closed

namespace Worker

/-- Outcome booleans for the external calls a worker task makes:
`available` — `psycopg2.connect(**DB_CONFIG)` succeeds;
`queryOk` — the SQL statements in the task's `try` block succeed. -/
structure DbEnv where
  available : Bool
  queryOk : Bool
deriving DecidableEq, Repr

/-- A row of the `items` table (`id SERIAL, name, description,
created_at TIMESTAMP`); `created_at` is a timestamp in seconds. -/
structure Row where
  id : Nat
  name : String
  description : String
  created_at : Int
deriving DecidableEq, Repr

/-- `timedelta(days=1)` in seconds. -/
def secondsPerDay : Int := 86400

/-- `psycopg2.connect(**DB_CONFIG)`: the raising primitive underneath
`get_db_connection`. -/
def psycopg2_connect (env : DbEnv) : Except String Unit :=
  if env.available then .ok () else .error "connection failed"

/-- `worker.get_db_connection`: catches any exception from
`psycopg2.connect` and returns `None` (here `none`). -/
def get_db_connection (env : DbEnv) : Option Unit :=
  match psycopg2_connect env with
  | .ok c => some c
  | .error _ => none

/-- Result of `cleanup_old_items`: the store after the call, the deleted
count that was logged (`none` when the cleanup was skipped or failed), and
the connection usage. -/
structure CleanupResult where
  store : List Row
  loggedDeleted : Option Nat
  conn : ConnUse
deriving DecidableEq, Repr

/-- `worker.cleanup_old_items`: acquire a connection (skip with a log line
when absent); `DELETE FROM items WHERE created_at < now - CLEANUP_DAYS
days`, commit, log the count, close; on a query exception, log and close. -/
def cleanup_old_items (env : DbEnv) (now : Int) (cleanupDays : Int)
    (store : List Row) : CleanupResult :=
  match get_db_connection env with
  | none => ⟨store, none, ⟨false, false⟩⟩
  | some _ =>
    if env.queryOk then
      let cleanup_date := now - cleanupDays * secondsPerDay
      let kept := store.filter (fun r => !decide (r.created_at < cleanup_date))
      let deleted_count := (store.filter (fun r => decide (r.created_at < cleanup_date))).length
      ⟨kept, some deleted_count, ⟨true, true⟩⟩
    else
      ⟨store, none, ⟨true, true⟩⟩

/-- Result of `process_pending_tasks`: the item count that was logged
(`none` when skipped or failed) and the connection usage. -/
structure CountResult where
  loggedCount : Option Nat
  conn : ConnUse
deriving DecidableEq, Repr

/-- `worker.process_pending_tasks`: acquire a connection (skip when
absent); `SELECT COUNT(*) FROM items`, log it, close; on a query
exception, log and close. -/
def process_pending_tasks (env : DbEnv) (store : List Row) : CountResult :=
  match get_db_connection env with
  | none => ⟨none, ⟨false, false⟩⟩
  | some _ =>
    if env.queryOk then ⟨some store.length, ⟨true, true⟩⟩
    else ⟨none, ⟨true, true⟩⟩

/-- `worker.initialize_database`: acquire a connection (return `False`
when absent); run the DDL, commit, close, return `True`; on an exception,
log, close, return `False`. -/
def initialize_database (env : DbEnv) : Bool × ConnUse :=
  match get_db_connection env with
  | none => (false, ⟨false, false⟩)
  | some _ =>
    if env.queryOk then (true, ⟨true, true⟩)
    else (false, ⟨true, true⟩)

/-- Observable events of `run_worker`, in program order. -/
inductive WorkerEvent where
  | initDb
  | backoffSleep
  | processPending
  | cleanup
  | errorLogged
  | intervalSleep
deriving DecidableEq, Repr

/-- The events of one iteration of the `while True` loop in `run_worker`,
where `iteration` is the counter after the `iteration += 1` at the top of
the tick and `err` says whether an exception was raised inside the tick's
`try` block (then it is caught and logged). The `time.sleep` at the bottom
runs either way. -/
def tickEvents (err : Bool) (iteration : Nat) : List WorkerEvent :=
  (if err then [.errorLogged]
   else [.processPending] ++ (if iteration % 10 = 0 then [.cleanup] else []))
  ++ [.intervalSleep]

/-- The events of the first `n` loop iterations of `run_worker`, with
`err i` saying whether tick `i` (1-based) raised inside its `try`. -/
def workerTicks (err : Nat → Bool) : Nat → List WorkerEvent
  | 0 => []
  | n + 1 => workerTicks err n ++ tickEvents (err (n + 1)) (n + 1)

/-- The startup phase of `run_worker`: `initialize_database()`, and if it
returned `False`, a 10-second sleep and one retry; the loop is entered in
either case. `env1` is the environment of the first attempt, `env2` of
the retry. -/
def startEvents (env1 _env2 : DbEnv) : List WorkerEvent :=
  if (initialize_database env1).1 then [.initDb]
  else [.initDb, .backoffSleep, .initDb]

/-- The full event trace of `run_worker` after `n` loop iterations. -/
def workerTrace (env1 env2 : DbEnv) (err : Nat → Bool) (n : Nat) :
    List WorkerEvent :=
  startEvents env1 env2 ++ workerTicks err n

end Worker

namespace Api

/-- Outcome booleans for the external calls a request handler makes:
`available` — `psycopg2.connect(**DB_CONFIG)` succeeds;
`queryOk` — the SQL statements in the handler's `try` block succeed;
`jsonOk` — `request.get_json(force=True)` succeeds (POST only);
`hasName` — the parsed body is truthy and has a `name` key (POST only). -/
structure ApiEnv where
  available : Bool
  queryOk : Bool
  jsonOk : Bool
  hasName : Bool
deriving DecidableEq, Repr

/-- `psycopg2.connect(**DB_CONFIG)` in the API service. -/
def psycopg2_connect (env : ApiEnv) : Except String Unit :=
  if env.available then .ok () else .error "connection failed"

/-- `app.get_db_connection`: catches any exception from `psycopg2.connect`
and returns `None` (here `none`). -/
def get_db_connection (env : ApiEnv) : Option Unit :=
  match psycopg2_connect env with
  | .ok c => some c
  | .error _ => none

/-- One `REQUEST_COUNT.labels(method=…, endpoint='/api/items',
status=…).inc()`. -/
def requestCountInc (method status : String) : MetricOp :=
  .inc "api_requests_total" [method, "/api/items", status] 1

deriving instance DecidableEq for Except

/-- Result of one request handler: the HTTP status it returns (`Except.error`
when an exception escapes the handler), the metric operations it performed
in order, and its connection usage. -/
structure HandlerResult where
  response : Except String Nat
  ops : List MetricOp
  conn : ConnUse
deriving DecidableEq, Repr

/-- `GET /api/items` (`app.get_items`): increments the `success`-labelled
request counter at entry; 503 (plus an `error` increment) when the
connection is absent; otherwise runs the SELECT and returns 200, closing
the connection, or catches the query exception and returns 500 without
closing it. -/
def get_items (env : ApiEnv) : HandlerResult :=
  let entry := [requestCountInc "GET" "success"]
  match get_db_connection env with
  | none => ⟨.ok 503, entry ++ [requestCountInc "GET" "error"], ⟨false, false⟩⟩
  | some _ =>
    if env.queryOk then ⟨.ok 200, entry, ⟨true, true⟩⟩
    else ⟨.ok 500, entry, ⟨true, false⟩⟩

/-- `POST /api/items` (`app.create_item`): increments the
`success`-labelled request counter at entry, then parses the body
(`get_json(force=True)` may raise, escaping the handler); 400 (plus an
`error` increment) when `name` is missing; 503 when the connection is
absent; otherwise 201 on a successful INSERT, closing the connection, or
500 on a caught query exception without closing it. -/
def create_item (env : ApiEnv) : HandlerResult :=
  let entry := [requestCountInc "POST" "success"]
  if !env.jsonOk then ⟨.error "get_json raised", entry, ⟨false, false⟩⟩
  else if !env.hasName then
    ⟨.ok 400, entry ++ [requestCountInc "POST" "error"], ⟨false, false⟩⟩
  else
    match get_db_connection env with
    | none => ⟨.ok 503, entry, ⟨false, false⟩⟩
    | some _ =>
      if env.queryOk then ⟨.ok 201, entry, ⟨true, true⟩⟩
      else ⟨.ok 500, entry, ⟨true, false⟩⟩

/-- `DELETE /api/items/<id>` (`app.delete_item`): 503 when the connection
is absent; 200 on a successful DELETE, closing the connection; 500 on a
caught query exception without closing it. No request-counter updates. -/
def delete_item (env : ApiEnv) : HandlerResult :=
  match get_db_connection env with
  | none => ⟨.ok 503, [], ⟨false, false⟩⟩
  | some _ =>
    if env.queryOk then ⟨.ok 200, [], ⟨true, true⟩⟩
    else ⟨.ok 500, [], ⟨true, false⟩⟩

/-- `GET /ready` (`app.ready`): opens a connection; if it succeeds, closes
it and returns 200, else returns 503. -/
def ready (env : ApiEnv) : HandlerResult :=
  match get_db_connection env with
  | none => ⟨.ok 503, [], ⟨false, false⟩⟩
  | some _ => ⟨.ok 200, [], ⟨true, true⟩⟩

/-- A current sample of the registry: metric name, label values, value. -/
abbrev Sample := String × List String × ℚ

/-- Add `d` to the sample for `(m, ls)`, creating it lazily at value `d`
when it does not exist yet. -/
def bumpSample (m : String) (ls : List String) (d : ℚ) :
    List Sample → List Sample
  | [] => [(m, ls, d)]
  | (m', ls', v) :: rest =>
    if m' = m ∧ ls' = ls then (m', ls', v + d) :: rest
    else (m', ls', v) :: bumpSample m ls d rest

/-- Overwrite the sample for `(m, ls)` with `v`, creating it lazily when
it does not exist yet. -/
def setSample (m : String) (ls : List String) (v : ℚ) :
    List Sample → List Sample
  | [] => [(m, ls, v)]
  | (m', ls', w) :: rest =>
    if m' = m ∧ ls' = ls then (m', ls', v) :: rest
    else (m', ls', w) :: setSample m ls v rest

/-- Apply one metric operation to the registry samples. -/
def applyOp (ss : List Sample) (op : MetricOp) : List Sample :=
  match op with
  | .inc m ls d => bumpSample m ls (d : ℚ) ss
  | .set m ls v => setSample m ls v ss

/-- Apply a sequence of metric operations to the registry samples. -/
def applyOps (ss : List Sample) (ops : List MetricOp) : List Sample :=
  ops.foldl applyOp ss

/-- The `# TYPE` header lines of the four metric families the API service
registers at import time (`REQUEST_COUNT`, `REQUEST_DURATION`,
`DB_CONNECTIONS`, `ITEMS_TOTAL`). -/
def registryFamilyLines : List String :=
  ["# TYPE api_requests_total counter",
   "# TYPE api_request_duration_seconds histogram",
   "# TYPE api_db_connections_active gauge",
   "# TYPE api_items_total gauge"]

/-- Join strings with a separator. -/
def joinWith (sep : String) : List String → String
  | [] => ""
  | [s] => s
  | s :: rest => s ++ sep ++ joinWith sep rest

/-- Render a rational metric value. -/
def ratStr (q : ℚ) : String := toString q.num ++ "/" ++ toString q.den

/-- Render one registry sample as an exposition line. -/
def sampleLine (s : Sample) : String :=
  s.1 ++ " " ++ joinWith "," s.2.1 ++ " " ++ ratStr s.2.2

/-- `prometheus_client.generate_latest`: serialize the registry — the
family header lines followed by one line per current sample. -/
def generate_latest (ss : List Sample) : String :=
  joinWith "\n" (registryFamilyLines ++ ss.map sampleLine)

/-- Result of `GET /metrics`: status, body, the metric operations the call
performed, registry samples after the call, connection usage. -/
structure MetricsResult where
  status : Nat
  body : String
  ops : List MetricOp
  samples : List Sample
  conn : ConnUse
deriving DecidableEq, Repr

/-- `GET /metrics` (`app.metrics`): attempts one connection; when it is
present, reads `SELECT COUNT(*) FROM items` (value `dbCount`) and sets the
`api_items_total` gauge, closing the connection — any exception in that
block is swallowed (`except: pass`) without closing the connection; then
always returns `generate_latest()` with HTTP 200. -/
def metrics (env : ApiEnv) (dbCount : Nat) (ss : List Sample) :
    MetricsResult :=
  match get_db_connection env with
  | none => ⟨200, generate_latest ss, [], ss, ⟨false, false⟩⟩
  | some _ =>
    if env.queryOk then
      let gaugeOps : List MetricOp := [.set "api_items_total" [] (dbCount : ℚ)]
      let ss2 := applyOps ss gaugeOps
      ⟨200, generate_latest ss2, gaugeOps, ss2, ⟨true, true⟩⟩
    else ⟨200, generate_latest ss, [], ss, ⟨true, false⟩⟩

end Api

namespace Exporter

/-- A Gatekeeper constraint object as the exporter reads it: its
`metadata.name` and the number of entries in `status.violations`. -/
structure Constraint where
  name : String
  violations : Nat
deriving DecidableEq, Repr

/-- A pod as the exporter reads it: its namespace and whether its labels
contain the `app` key. -/
structure Pod where
  ns : String
  hasAppLabel : Bool
deriving DecidableEq, Repr

/-- Outcomes of the external calls one exporter tick makes:
`inclusterOk` — `config.load_incluster_config()` succeeds;
`kubeconfigOk` — `config.load_kube_config()` succeeds (attempted only when
the in-cluster load raised);
`constraintsResult` — the `list_cluster_custom_object` call;
`podsResult` — the `list_pod_for_all_namespaces` call. -/
structure Env where
  inclusterOk : Bool
  kubeconfigOk : Bool
  constraintsResult : Except String (List Constraint)
  podsResult : Except String (List Pod)
deriving Repr

/-- The metric operations for one constraint: an increment of
`POLICY_VIOLATIONS` by the violation count when it is non-zero (`if
violations:`), then the simulated `POLICY_VALIDATION_DURATION` set. -/
def constraintOps (c : Constraint) : List MetricOp :=
  (if c.violations ≠ 0 then
    [.inc "policy_violations_total" [c.name, "warning"] (c.violations : Int)]
   else [])
  ++ [.set "policy_validation_duration_seconds" [c.name] (5 / 100 : ℚ)]

/-- Namespaces whose pods the label scan skips. -/
def systemNamespaces : List String :=
  ["kube-system", "gatekeeper-system", "monitoring"]

/-- Number of pods outside the system namespaces whose labels lack `app`. -/
def podsWithoutAppLabel (pods : List Pod) : Nat :=
  (pods.filter (fun p => !systemNamespaces.contains p.ns && !p.hasAppLabel)).length

/-- The metric operations after the pod scan, where `n` is the number of
pods without the `app` label: the `require-app-label` counter increment
(only when `n > 0`), the simulated vulnerability gauges, the
`DEPLOYMENT_BLOCKED` increment (only when `n > 0`), and the scan-status
gauges. -/
def podPhaseOps (n : Nat) : List MetricOp :=
  (if n > 0 then
    [.inc "policy_violations_total" ["require-app-label", "warning"] (n : Int)]
   else [])
  ++ [.set "vulnerability_count" ["critical"] 0,
      .set "vulnerability_count" ["high"] 2,
      .set "vulnerability_count" ["medium"] 5]
  ++ (if n > 0 then
        [.inc "deployment_blocked_total" ["missing-required-labels"] 1]
      else [])
  ++ [.set "vulnerability_scan_status" ["api-service"] 1,
      .set "vulnerability_scan_status" ["worker-service"] 1]

/-- The body of the exporter's single `try` block: the constraint query
(a failure is caught, ending the tick with no operations performed), the
per-constraint operations, the pod query (a failure is caught, ending the
tick with the constraint-scan operations already performed), then the
pod-phase operations. -/
def collectBodyOps (env : Env) : List MetricOp :=
  match env.constraintsResult with
  | .error _ => []
  | .ok cs =>
    let constraintPhase := cs.flatMap constraintOps
    match env.podsResult with
    | .error _ => constraintPhase
    | .ok pods => constraintPhase ++ podPhaseOps (podsWithoutAppLabel pods)

/-- `collect_gatekeeper_violations`: first loads the client configuration
— `load_incluster_config()` under a bare `except:` that falls back to
`load_kube_config()`, whose own failure is not caught and escapes the
function — then runs the collection body inside one `try/except` that
catches everything. The result is the list of metric operations the tick
performed, or `Except.error` when the configuration load escaped. -/
def collect_gatekeeper_violations (env : Env) : Except String (List MetricOp) :=
  if env.inclusterOk || env.kubeconfigOk then .ok (collectBodyOps env)
  else .error "load_kube_config raised"

/-- Total amount added to the `policy_violations_total` counter across a
list of metric operations, over all label combinations. -/
def policyViolationsTotalInc (ops : List MetricOp) : Int :=
  (ops.map
    (fun op =>
      match op with
      | .inc m _ d => if m = "policy_violations_total" then d else 0
      | .set _ _ _ => 0)).sum

/-- Keep only the increments of `policy_violations_total`. -/
def policyViolationIncs (ops : List MetricOp) : List MetricOp :=
  ops.filter
    (fun op =>
      match op with
      | .inc m _ _ => m = "policy_violations_total"
      | .set _ _ _ => false)

end Exporter

/-- One run of a program operation that touches a process-wide metrics
registry (an API request handler, a `/metrics` scrape, or one exporter
tick), with the environment that drives it. -/
inductive ProgramRun where
  | apiGetItems (env : Api.ApiEnv)
  | apiCreateItem (env : Api.ApiEnv)
  | apiDeleteItem (env : Api.ApiEnv)
  | apiMetrics (env : Api.ApiEnv) (dbCount : Nat)
  | exporterTick (env : Exporter.Env)

/-- The metric operations one program run performs, in order (an exporter
tick whose configuration load escapes performs none). -/
def runOps : ProgramRun → List MetricOp
  | .apiGetItems env => (Api.get_items env).ops
  | .apiCreateItem env => (Api.create_item env).ops
  | .apiDeleteItem env => (Api.delete_item env).ops
  | .apiMetrics env dbCount => (Api.metrics env dbCount []).ops
  | .exporterTick env =>
    match Exporter.collect_gatekeeper_violations env with
    | .ok ops => ops
    | .error _ => []

/-- The concatenated metric-operation trace of a sequence of program runs. -/
def programTrace (runs : List ProgramRun) : List MetricOp :=
  runs.flatMap runOps

/-- The three-row store of the spec's cleanup scenario: rows aged 29, 30
and 31 days, with `now = 0` so `created_at = -age * 86400`. -/
def demoStore : List Worker.Row :=
  [⟨1, "a", "", -29 * Worker.secondsPerDay⟩,
   ⟨2, "b", "", -30 * Worker.secondsPerDay⟩,
   ⟨3, "c", "", -31 * Worker.secondsPerDay⟩]

/-- C1: for every store state and retention threshold, a cleanup tick with
a working connection keeps exactly the rows whose `created_at` is not
strictly earlier than `now - T` days, logs the number of strictly older
rows as deleted, and on the 29/30/31-day store with threshold 30 removes
exactly the 31-day row. -/
theorem C1_cleanup_deletes_strictly_older (env : Worker.DbEnv)
    (now cleanupDays : Int) (store : List Worker.Row)
    (hAvail : env.available = true) (hQuery : env.queryOk = true) :
    (∀ r : Worker.Row,
        r ∈ (Worker.cleanup_old_items env now cleanupDays store).store ↔
          r ∈ store ∧
            ¬(r.created_at < now - cleanupDays * Worker.secondsPerDay)) ∧
    (Worker.cleanup_old_items env now cleanupDays store).loggedDeleted =
      some ((store.filter
        (fun r =>
          decide (r.created_at < now - cleanupDays * Worker.secondsPerDay))).length) ∧
    Worker.cleanup_old_items ⟨true, true⟩ 0 30 demoStore =
      ⟨[⟨1, "a", "", -29 * Worker.secondsPerDay⟩,
        ⟨2, "b", "", -30 * Worker.secondsPerDay⟩],
       some 1, ⟨true, true⟩⟩ := by
  refine ⟨?_, ?_, by decide⟩
  · intro r
    simp [Worker.cleanup_old_items, Worker.get_db_connection,
      Worker.psycopg2_connect, hAvail, hQuery, List.mem_filter]
  · simp [Worker.cleanup_old_items, Worker.get_db_connection,
      Worker.psycopg2_connect, hAvail, hQuery]

/-- Witness for C1 at the concrete 29/30/31-day store. -/
theorem C1_cleanup_witness :
    (∀ r : Worker.Row,
        r ∈ (Worker.cleanup_old_items ⟨true, true⟩ 0 30 demoStore).store ↔
          r ∈ demoStore ∧
            ¬(r.created_at < 0 - 30 * Worker.secondsPerDay)) ∧
    (Worker.cleanup_old_items ⟨true, true⟩ 0 30 demoStore).loggedDeleted =
      some ((demoStore.filter
        (fun r => decide (r.created_at < 0 - 30 * Worker.secondsPerDay))).length) ∧
    Worker.cleanup_old_items ⟨true, true⟩ 0 30 demoStore =
      ⟨[⟨1, "a", "", -29 * Worker.secondsPerDay⟩,
        ⟨2, "b", "", -30 * Worker.secondsPerDay⟩],
       some 1, ⟨true, true⟩⟩ :=
  C1_cleanup_deletes_strictly_older ⟨true, true⟩ 0 30 demoStore rfl rfl

/-- C2: in `run_worker` (iteration counter starting at 0, incremented at
the top of every tick) a normal tick runs `cleanup_old_items` exactly when
the incremented counter is divisible by 10, runs `process_pending_tasks`
on every tick, and over the first 10 ticks the cleanup runs exactly once —
on the 10th tick — while the regular task runs 10 times. -/
theorem C2_cleanup_every_tenth_tick :
    (∀ i : Nat,
        Worker.WorkerEvent.cleanup ∈ Worker.tickEvents false i ↔ i % 10 = 0) ∧
    (∀ i : Nat, Worker.WorkerEvent.processPending ∈ Worker.tickEvents false i) ∧
    (Worker.workerTicks (fun _ => false) 10).count Worker.WorkerEvent.cleanup = 1 ∧
    (Worker.workerTicks (fun _ => false) 9).count Worker.WorkerEvent.cleanup = 0 ∧
    Worker.WorkerEvent.cleanup ∈ Worker.tickEvents false 10 ∧
    (Worker.workerTicks (fun _ => false) 10).count
      Worker.WorkerEvent.processPending = 10 := by
  refine ⟨?_, ?_, by decide, by decide, by decide, by decide⟩
  · intro i
    by_cases h : i % 10 = 0 <;> simp [Worker.tickEvents, h]
  · intro i
    by_cases h : i % 10 = 0 <;> simp [Worker.tickEvents, h]

/-- C9: `run_worker` attempts database initialization once, retries once
after the backoff sleep exactly when the first attempt fails (so at most
twice), and enters the tick loop either way; each tick — including a tick
whose `try` block raised, which only logs the error — ends with the fixed
interval sleep and is followed by the next tick, so the trace after `n+1`
ticks always extends the trace after `n` ticks and the loop never exits on
its own. -/
theorem C9_worker_loop_structure :
    (∀ env1 env2 : Worker.DbEnv,
        (Worker.startEvents env1 env2).count Worker.WorkerEvent.initDb =
          if (Worker.initialize_database env1).1 then 1 else 2) ∧
    (∀ env1 env2 : Worker.DbEnv, ∀ err : Nat → Bool,
        Worker.workerTrace env1 env2 err 0 = Worker.startEvents env1 env2) ∧
    (∀ env1 env2 : Worker.DbEnv, ∀ err : Nat → Bool, ∀ n : Nat,
        Worker.workerTrace env1 env2 err (n + 1) =
          Worker.workerTrace env1 env2 err n ++
            Worker.tickEvents (err (n + 1)) (n + 1)) ∧
    (∀ (err : Bool) (i : Nat),
        (Worker.tickEvents err i).getLast? =
          some Worker.WorkerEvent.intervalSleep) ∧
    (∀ i : Nat,
        Worker.tickEvents true i =
          [Worker.WorkerEvent.errorLogged, Worker.WorkerEvent.intervalSleep]) := by
  refine ⟨?_, ?_, ?_, ?_, ?_⟩
  · intro env1 env2
    by_cases h : (Worker.initialize_database env1).1 <;>
      simp [Worker.startEvents, h]
  · intro env1 env2 err
    simp [Worker.workerTrace, Worker.workerTicks]
  · intro env1 env2 err n
    simp [Worker.workerTrace, Worker.workerTicks]
  · intro err i
    cases err
    · by_cases h : i % 10 = 0 <;> simp [Worker.tickEvents, h]
    · simp [Worker.tickEvents]
  · intro i
    simp [Worker.tickEvents]

/-- C3 counterexample: `GET /api/items` with a working connection whose
query then raises opens a connection and returns (HTTP 500) without
closing it — the handler's `except` branch has no `conn.close()` — so not
every operation releases its connection on every exit path. -/
theorem C3_counterexample_get_items_leaks :
    (Api.get_items ⟨true, false, true, true⟩).conn =
        ⟨true, false⟩ ∧
      (Api.get_items ⟨true, false, true, true⟩).conn.released = false ∧
      (Api.get_items ⟨true, false, true, true⟩).response = .ok 500 := by
  refine ⟨rfl, rfl, rfl⟩

/-- C3 amended: the worker tasks (`cleanup_old_items`,
`process_pending_tasks`, `initialize_database`) and `GET /ready` close the
connection on every exit path; the API handlers (`GET /api/items`,
`POST /api/items`, `DELETE /api/items/<id>`, `GET /metrics`) close it
when no connection was opened or the query succeeds, but leak it when the
connection opens and the query then raises. -/
theorem C3_amended_connection_release :
    (∀ (env : Worker.DbEnv) (now days : Int) (store : List Worker.Row),
        (Worker.cleanup_old_items env now days store).conn.released = true) ∧
    (∀ (env : Worker.DbEnv) (store : List Worker.Row),
        (Worker.process_pending_tasks env store).conn.released = true) ∧
    (∀ env : Worker.DbEnv,
        (Worker.initialize_database env).2.released = true) ∧
    (∀ env : Api.ApiEnv, (Api.ready env).conn.released = true) ∧
    (∀ env : Api.ApiEnv,
        (Api.get_items env).conn.released = (!env.available || env.queryOk)) ∧
    (∀ env : Api.ApiEnv,
        (Api.delete_item env).conn.released = (!env.available || env.queryOk)) ∧
    (∀ (env : Api.ApiEnv) (dbCount : Nat) (ss : List Api.Sample),
        (Api.metrics env dbCount ss).conn.released =
          (!env.available || env.queryOk)) ∧
    (∀ env : Api.ApiEnv,
        (Api.create_item env).conn.released =
          (!env.jsonOk || !env.hasName || !env.available || env.queryOk)) := by
  refine ⟨?_, ?_, ?_, ?_, ?_, ?_, ?_, ?_⟩
  · intro env now days store
    rcases env with ⟨a, q⟩
    cases a <;> cases q <;>
      simp [Worker.cleanup_old_items, Worker.get_db_connection,
        Worker.psycopg2_connect, ConnUse.released]
  · intro env store
    rcases env with ⟨a, q⟩
    cases a <;> cases q <;>
      simp [Worker.process_pending_tasks, Worker.get_db_connection,
        Worker.psycopg2_connect, ConnUse.released]
  · intro env
    rcases env with ⟨a, q⟩
    cases a <;> cases q <;>
      simp [Worker.initialize_database, Worker.get_db_connection,
        Worker.psycopg2_connect, ConnUse.released]
  · intro env
    rcases env with ⟨a, q, j, n⟩
    cases a <;>
      simp [Api.ready, Api.get_db_connection, Api.psycopg2_connect,
        ConnUse.released]
  · intro env
    rcases env with ⟨a, q, j, n⟩
    cases a <;> cases q <;>
      simp [Api.get_items, Api.get_db_connection, Api.psycopg2_connect,
        ConnUse.released]
  · intro env
    rcases env with ⟨a, q, j, n⟩
    cases a <;> cases q <;>
      simp [Api.delete_item, Api.get_db_connection, Api.psycopg2_connect,
        ConnUse.released]
  · intro env dbCount ss
    rcases env with ⟨a, q, j, n⟩
    cases a <;> cases q <;>
      simp [Api.metrics, Api.get_db_connection, Api.psycopg2_connect,
        ConnUse.released]
  · intro env
    rcases env with ⟨a, q, j, n⟩
    cases a <;> cases q <;> cases j <;> cases n <;>
      simp [Api.create_item, Api.get_db_connection, Api.psycopg2_connect,
        ConnUse.released]

/-- C4: `get_db_connection` catches the connect failure and returns `None`
— it is total and never an escaping exception — and every caller that
depends on it completes normally when it returns `None`: the worker tasks
skip their work leaving the store untouched, the CRUD handlers return 503,
`GET /ready` returns 503, and `GET /metrics` still returns 200. -/
theorem C4_absent_connection_never_raises (wenv : Worker.DbEnv)
    (aenv : Api.ApiEnv) (now days : Int) (store : List Worker.Row)
    (dbCount : Nat) (ss : List Api.Sample)
    (hw : wenv.available = false) (ha : aenv.available = false) :
    Worker.psycopg2_connect wenv = .error "connection failed" ∧
    Worker.get_db_connection wenv = none ∧
    Api.get_db_connection aenv = none ∧
    Worker.cleanup_old_items wenv now days store =
      ⟨store, none, ⟨false, false⟩⟩ ∧
    Worker.process_pending_tasks wenv store = ⟨none, ⟨false, false⟩⟩ ∧
    (Api.get_items aenv).response = .ok 503 ∧
    (Api.delete_item aenv).response = .ok 503 ∧
    (Api.ready aenv).response = .ok 503 ∧
    (aenv.jsonOk = true → aenv.hasName = true →
      (Api.create_item aenv).response = .ok 503) ∧
    (Api.metrics aenv dbCount ss).status = 200 := by
  refine ⟨?_, ?_, ?_, ?_, ?_, ?_, ?_, ?_, ?_, ?_⟩
  · simp [Worker.psycopg2_connect, hw]
  · simp [Worker.get_db_connection, Worker.psycopg2_connect, hw]
  · simp [Api.get_db_connection, Api.psycopg2_connect, ha]
  · simp [Worker.cleanup_old_items, Worker.get_db_connection,
      Worker.psycopg2_connect, hw]
  · simp [Worker.process_pending_tasks, Worker.get_db_connection,
      Worker.psycopg2_connect, hw]
  · simp [Api.get_items, Api.get_db_connection, Api.psycopg2_connect, ha]
  · simp [Api.delete_item, Api.get_db_connection, Api.psycopg2_connect, ha]
  · simp [Api.ready, Api.get_db_connection, Api.psycopg2_connect, ha]
  · intro hj hn
    simp [Api.create_item, Api.get_db_connection, Api.psycopg2_connect,
      ha, hj, hn]
  · simp [Api.metrics, Api.get_db_connection, Api.psycopg2_connect, ha]

/-- Witness for C4 with an unreachable database on both services. -/
theorem C4_absent_connection_witness :
    Worker.psycopg2_connect ⟨false, true⟩ = .error "connection failed" ∧
    Worker.get_db_connection ⟨false, true⟩ = none ∧
    Api.get_db_connection ⟨false, true, true, true⟩ = none ∧
    Worker.cleanup_old_items ⟨false, true⟩ 0 30 demoStore =
      ⟨demoStore, none, ⟨false, false⟩⟩ ∧
    Worker.process_pending_tasks ⟨false, true⟩ demoStore =
      ⟨none, ⟨false, false⟩⟩ ∧
    (Api.get_items ⟨false, true, true, true⟩).response = .ok 503 ∧
    (Api.delete_item ⟨false, true, true, true⟩).response = .ok 503 ∧
    (Api.ready ⟨false, true, true, true⟩).response = .ok 503 ∧
    ((⟨false, true, true, true⟩ : Api.ApiEnv).jsonOk = true →
      (⟨false, true, true, true⟩ : Api.ApiEnv).hasName = true →
      (Api.create_item ⟨false, true, true, true⟩).response = .ok 503) ∧
    (Api.metrics ⟨false, true, true, true⟩ 7 []).status = 200 :=
  C4_absent_connection_never_raises ⟨false, true⟩ ⟨false, true, true, true⟩
    0 30 demoStore 7 [] rfl rfl

/-- C5 counterexample: when both `config.load_incluster_config()` and the
fallback `config.load_kube_config()` fail — both run before the task's
`try` block — the exception escapes `collect_gatekeeper_violations`, so
the task does not catch every error at its boundary. -/
theorem C5_counterexample_config_load_escapes :
    Exporter.collect_gatekeeper_violations
        ⟨false, false, .ok [], .ok []⟩ =
      .error "load_kube_config raised" := rfl

/-- C5 amended: once the client configuration loads (in-cluster or
kubeconfig), every error during the collection is caught at the task
boundary and the tick returns normally; the tick is not atomic — if the
pod-listing sub-query fails after the constraint scan, exactly the
constraint-scan operations (their counter increments included) remain
applied and all later updates of the tick are skipped, and if the
constraint query itself fails nothing is applied. A failure of both
configuration loads, however, escapes the task. -/
theorem C5_amended_task_boundary (env : Exporter.Env)
    (hconf : (env.inclusterOk || env.kubeconfigOk) = true) :
    Exporter.collect_gatekeeper_violations env =
      .ok (Exporter.collectBodyOps env) ∧
    (∀ (e : String) (cs : List Exporter.Constraint),
        env.constraintsResult = .ok cs → env.podsResult = .error e →
          Exporter.collectBodyOps env = cs.flatMap Exporter.constraintOps) ∧
    (∀ e : String,
        env.constraintsResult = .error e → Exporter.collectBodyOps env = []) := by
  refine ⟨?_, ?_, ?_⟩
  · simp [Exporter.collect_gatekeeper_violations, hconf]
  · intro e cs hcs hpods
    simp [Exporter.collectBodyOps, hcs, hpods]
  · intro e hcs
    simp [Exporter.collectBodyOps, hcs]

/-- Witness for C5's amended statement: a tick whose pod listing fails
after a constraint scan of one constraint with two violations. -/
theorem C5_amended_witness :
    Exporter.collect_gatekeeper_violations
        ⟨true, false, .ok [⟨"c1", 2⟩], .error "pods"⟩ =
      .ok (Exporter.collectBodyOps ⟨true, false, .ok [⟨"c1", 2⟩], .error "pods"⟩) ∧
    Exporter.collectBodyOps ⟨true, false, .ok [⟨"c1", 2⟩], .error "pods"⟩ =
      [⟨"c1", 2⟩].flatMap Exporter.constraintOps := by
  have h := C5_amended_task_boundary
    ⟨true, false, .ok [⟨"c1", 2⟩], .error "pods"⟩ rfl
  exact ⟨h.1, h.2.1 "pods" [⟨"c1", 2⟩] rfl rfl⟩

/-- The serialized registry always contains the family header lines, so it
is never the empty string. -/
theorem generate_latest_length_pos (ss : List Api.Sample) :
    0 < (Api.generate_latest ss).length := by
  simp only [Api.generate_latest, Api.registryFamilyLines, List.cons_append,
    List.nil_append, Api.joinWith, String.length_append]
  have h : 0 < "# TYPE api_requests_total counter".length := by decide
  omega

/-- C6: `GET /metrics` returns HTTP 200 with a non-empty serialized
registry body for every environment; when the connection attempt returns
`None` or the derived items-count read raises, the `api_items_total`
gauge update is skipped (no operation performed, samples unchanged) while
the registry is still serialized and returned. -/
theorem C6_metrics_always_200_nonempty (env : Api.ApiEnv) (dbCount : Nat)
    (ss : List Api.Sample) :
    (Api.metrics env dbCount ss).status = 200 ∧
    (Api.metrics env dbCount ss).body ≠ "" ∧
    (env.available = false →
      (Api.metrics env dbCount ss).ops = [] ∧
      (Api.metrics env dbCount ss).samples = ss ∧
      (Api.metrics env dbCount ss).body = Api.generate_latest ss) ∧
    (env.queryOk = false →
      (Api.metrics env dbCount ss).ops = [] ∧
      (Api.metrics env dbCount ss).samples = ss ∧
      (Api.metrics env dbCount ss).body = Api.generate_latest ss) := by
  have hbody : ∀ t : List Api.Sample, Api.generate_latest t ≠ "" := by
    intro t h
    have := generate_latest_length_pos t
    rw [h] at this
    simp at this
  rcases env with ⟨a, q, j, n⟩
  cases a <;> cases q <;>
    simp [Api.metrics, Api.get_db_connection, Api.psycopg2_connect, hbody]

/-- Witness for C6 with an absent connection and a non-trivial registry. -/
theorem C6_metrics_witness :
    (Api.metrics ⟨false, true, true, true⟩ 5
        [("api_requests_total", ["GET", "/api/items", "success"], 2)]).status = 200 ∧
    (Api.metrics ⟨false, true, true, true⟩ 5
        [("api_requests_total", ["GET", "/api/items", "success"], 2)]).body ≠ "" ∧
    (Api.metrics ⟨false, true, true, true⟩ 5
        [("api_requests_total", ["GET", "/api/items", "success"], 2)]).samples =
      [("api_requests_total", ["GET", "/api/items", "success"], 2)] := by
  have h := C6_metrics_always_200_nonempty ⟨false, true, true, true⟩ 5
    [("api_requests_total", ["GET", "/api/items", "success"], 2)]
  exact ⟨h.1, h.2.1, (h.2.2.1 rfl).2.1⟩

/-- C7: on a tick that reads two constraints — the first with 3 violation
entries, the second with 0 — and no offending pods, the exporter
increments `policy_violations_total` by exactly 3 in total, the only
increment being attributed to `(policy = first constraint's name,
severity = 'warning')`; a constraint with zero violations produces no
increment at all. -/
theorem C7_violation_counter_increment (n1 n2 : String) :
    Exporter.collect_gatekeeper_violations
        ⟨true, true, .ok [⟨n1, 3⟩, ⟨n2, 0⟩], .ok []⟩ =
      .ok (Exporter.collectBodyOps ⟨true, true, .ok [⟨n1, 3⟩, ⟨n2, 0⟩], .ok []⟩) ∧
    Exporter.policyViolationsTotalInc
        (Exporter.collectBodyOps ⟨true, true, .ok [⟨n1, 3⟩, ⟨n2, 0⟩], .ok []⟩) = 3 ∧
    Exporter.policyViolationIncs
        (Exporter.collectBodyOps ⟨true, true, .ok [⟨n1, 3⟩, ⟨n2, 0⟩], .ok []⟩) =
      [.inc "policy_violations_total" [n1, "warning"] 3] ∧
    (∀ c : Exporter.Constraint, c.violations = 0 →
        Exporter.policyViolationIncs (Exporter.constraintOps c) = []) := by
  refine ⟨?_, ?_, ?_, ?_⟩
  · simp [Exporter.collect_gatekeeper_violations]
  · simp [Exporter.collectBodyOps, Exporter.constraintOps,
      Exporter.podsWithoutAppLabel, Exporter.podPhaseOps,
      Exporter.policyViolationsTotalInc]
  · simp [Exporter.collectBodyOps, Exporter.constraintOps,
      Exporter.podsWithoutAppLabel, Exporter.podPhaseOps,
      Exporter.policyViolationIncs]
  · intro c h
    simp [Exporter.constraintOps, h, Exporter.policyViolationIncs]

/-- Witness for C7 with the constraint names `c1`, `c2`. -/
theorem C7_violation_counter_witness :
    Exporter.policyViolationsTotalInc
        (Exporter.collectBodyOps ⟨true, true, .ok [⟨"c1", 3⟩, ⟨"c2", 0⟩], .ok []⟩) = 3 ∧
    Exporter.policyViolationIncs
        (Exporter.collectBodyOps ⟨true, true, .ok [⟨"c1", 3⟩, ⟨"c2", 0⟩], .ok []⟩) =
      [.inc "policy_violations_total" ["c1", "warning"] 3] ∧
    Exporter.policyViolationIncs (Exporter.constraintOps ⟨"c2", 0⟩) = [] := by
  have h := C7_violation_counter_increment "c1" "c2"
  exact ⟨h.2.1, h.2.2.1, h.2.2.2 ⟨"c2", 0⟩ rfl⟩

/-- Every operation a constraint scan emits has a non-negative delta. -/
theorem constraintOps_delta_nonneg (c : Exporter.Constraint) :
    ∀ op ∈ Exporter.constraintOps c, 0 ≤ incDelta op := by
  intro op h
  by_cases hv : c.violations = 0
  · simp [Exporter.constraintOps, hv] at h
    subst h
    simp [incDelta]
  · simp [Exporter.constraintOps, hv] at h
    rcases h with h | h <;> subst h <;> simp [incDelta]

/-- Every operation the pod phase emits has a non-negative delta. -/
theorem podPhaseOps_delta_nonneg (n : Nat) :
    ∀ op ∈ Exporter.podPhaseOps n, 0 ≤ incDelta op := by
  intro op h
  by_cases hn : 0 < n
  · simp [Exporter.podPhaseOps, hn] at h
    rcases h with h | h | h | h | h | h | h <;> subst h <;> simp [incDelta]
  · simp [Exporter.podPhaseOps, hn] at h
    rcases h with h | h | h | h | h <;> subst h <;> simp [incDelta]

/-- Every operation an exporter tick body emits has a non-negative delta. -/
theorem collectBodyOps_delta_nonneg (env : Exporter.Env) :
    ∀ op ∈ Exporter.collectBodyOps env, 0 ≤ incDelta op := by
  rcases env with ⟨ic, kc, cr, pr⟩
  cases cr with
  | error e =>
    intro op h
    simp [Exporter.collectBodyOps] at h
  | ok cs =>
    cases pr with
    | error e =>
      intro op h
      simp only [Exporter.collectBodyOps, List.mem_flatMap] at h
      rcases h with ⟨c, hc, hop⟩
      exact constraintOps_delta_nonneg c op hop
    | ok pods =>
      intro op h
      simp only [Exporter.collectBodyOps, List.mem_append, List.mem_flatMap] at h
      rcases h with ⟨c, hc, hop⟩ | hop
      · exact constraintOps_delta_nonneg c op hop
      · exact podPhaseOps_delta_nonneg _ op hop

/-- Every metric operation any program run performs has a non-negative
delta. -/
theorem runOps_delta_nonneg (run : ProgramRun) :
    ∀ op ∈ runOps run, 0 ≤ incDelta op := by
  cases run with
  | apiGetItems env =>
    rcases env with ⟨a, q, j, n⟩
    cases a <;> cases q <;> cases j <;> cases n <;> decide
  | apiCreateItem env =>
    rcases env with ⟨a, q, j, n⟩
    cases a <;> cases q <;> cases j <;> cases n <;> decide
  | apiDeleteItem env =>
    rcases env with ⟨a, q, j, n⟩
    cases a <;> cases q <;> cases j <;> cases n <;> decide
  | apiMetrics env dbCount =>
    intro op h
    rcases env with ⟨a, q, j, n⟩
    cases a <;> cases q <;>
      simp [runOps, Api.metrics, Api.get_db_connection,
        Api.psycopg2_connect] at h
    subst h
    simp [incDelta]
  | exporterTick env =>
    intro op h
    rcases env with ⟨ic, kc, cr, pr⟩
    cases ic <;> cases kc <;>
      simp only [runOps, Exporter.collect_gatekeeper_violations,
        Bool.or_self, Bool.or_true, Bool.true_or, if_true, if_false,
        Bool.false_or, ite_true, ite_false] at h
    · simp at h
    · exact collectBodyOps_delta_nonneg ⟨false, true, cr, pr⟩ op h
    · exact collectBodyOps_delta_nonneg ⟨true, false, cr, pr⟩ op h
    · exact collectBodyOps_delta_nonneg ⟨true, true, cr, pr⟩ op h

/-- `counterValue` distributes over concatenation of traces. -/
theorem counterValue_append (l1 l2 : List MetricOp) (m : String)
    (ls : List String) :
    counterValue (l1 ++ l2) m ls = counterValue l1 m ls + counterValue l2 m ls := by
  simp [counterValue]

/-- A trace of non-negative-delta operations has a non-negative counter
value. -/
theorem counterValue_nonneg {l : List MetricOp}
    (h : ∀ op ∈ l, 0 ≤ incDelta op) (m : String) (ls : List String) :
    0 ≤ counterValue l m ls := by
  apply List.sum_nonneg
  intro x hx
  rcases List.mem_map.1 hx with ⟨op, hop, rfl⟩
  have hd := h op hop
  cases op with
  | inc m' ls' d =>
    simp [incDelta] at hd
    by_cases hc : m' = m ∧ ls' = ls <;> simp [counterContribution, hc, hd]
  | set m' ls' v => simp [counterContribution]

/-- C8: every counter increment the program performs (request counters in
the API handlers, violation and blocked-deployment counters in the
exporter) has a non-negative delta, so along any sequence of program runs
the value of every counter at every label combination is non-decreasing:
the value observed after any prefix of the trace is at most the value at
the end. -/
theorem C8_counters_nondecreasing :
    (∀ run : ProgramRun, ∀ op ∈ runOps run, 0 ≤ incDelta op) ∧
    (∀ (runs : List ProgramRun) (m : String) (ls : List String) (k : Nat),
        counterValue ((programTrace runs).take k) m ls ≤
          counterValue (programTrace runs) m ls) := by
  constructor
  · exact runOps_delta_nonneg
  · intro runs m ls k
    have hall : ∀ op ∈ programTrace runs, 0 ≤ incDelta op := by
      intro op h
      rcases List.mem_flatMap.1 h with ⟨run, hrun, hop⟩
      exact runOps_delta_nonneg run op hop
    have hdrop : 0 ≤ counterValue ((programTrace runs).drop k) m ls :=
      counterValue_nonneg
        (fun op hop => hall op (List.mem_of_mem_drop hop)) m ls
    have hsplit := counterValue_append ((programTrace runs).take k)
      ((programTrace runs).drop k) m ls
    rw [List.take_append_drop] at hsplit
    omega

/-- Witness for C8: a one-request trace, observed after its first
operation. -/
theorem C8_counters_witness :
    0 ≤ incDelta (Api.requestCountInc "GET" "success") ∧
    counterValue ((programTrace [.apiGetItems ⟨true, true, true, true⟩]).take 1)
        "api_requests_total" ["GET", "/api/items", "success"] ≤
      counterValue (programTrace [.apiGetItems ⟨true, true, true, true⟩])
        "api_requests_total" ["GET", "/api/items", "success"] :=
  ⟨C8_counters_nondecreasing.1 (.apiGetItems ⟨true, true, true, true⟩)
      (Api.requestCountInc "GET" "success") (by decide),
   C8_counters_nondecreasing.2 [.apiGetItems ⟨true, true, true, true⟩]
      "api_requests_total" ["GET", "/api/items", "success"] 1⟩

/-- C10: in `GET /api/items` and `POST /api/items` the very first metric
operation of the handler, for every environment, is the increment of the
`status='success'`-labelled request counter — it happens at entry, before
validation or any database access — so the success-labelled counter ends
at 1 even on the 400, 503 and 500 paths; the error-labelled counter is
additionally incremented exactly on the connection-absent path of GET and
the missing-name path of POST, and on those requests both labels
increase. -/
theorem C10_success_label_at_entry (env : Api.ApiEnv) :
    (Api.get_items env).ops.head? =
      some (Api.requestCountInc "GET" "success") ∧
    (Api.create_item env).ops.head? =
      some (Api.requestCountInc "POST" "success") ∧
    counterValue (Api.get_items env).ops
        "api_requests_total" ["GET", "/api/items", "success"] = 1 ∧
    counterValue (Api.create_item env).ops
        "api_requests_total" ["POST", "/api/items", "success"] = 1 ∧
    counterValue (Api.get_items env).ops
        "api_requests_total" ["GET", "/api/items", "error"] =
      (if env.available then 0 else 1) ∧
    counterValue (Api.create_item env).ops
        "api_requests_total" ["POST", "/api/items", "error"] =
      (if env.jsonOk && !env.hasName then 1 else 0) := by
  rcases env with ⟨a, q, j, n⟩
  cases a <;> cases q <;> cases j <;> cases n <;> decide
